import Mathlib

/-
Shallow embedding of the toy-carpark service layer (src/services/payment.py,
src/services/session.py, src/services/reservation.py and the models they use).

Modelling conventions:
- Timestamps are integers counting minutes (UTC); a clock time of day is the
  value modulo 1440.  The source subtracts datetimes and truncates to whole
  minutes; working directly in minutes makes that subtraction exact.
- Money and rates are rationals (the source uses Python floats / Numeric
  columns; the algorithms are exact decimal arithmetic).
- SQLAlchemy rows become records in lists held by a single `St` value; the
  per-request session of core/dependencies.py commits on success and rolls
  back on any exception, so an operation is `St → Except Err (St × α)`:
  an `ok` result carries the committed state, an `error` result carries none
  (the caller keeps the pre-request state, mirroring the rollback).
- `scalar_one_or_none` on a query that can match several rows raises
  MultipleResultsFound; that surfaces here as `Err.internal`.  Lookups by a
  unique key (primary key, unique column) are `List.find?`.
- Python truthiness tests on optional integers / strings (`if data.space_id:`)
  are embedded as `pyTruthy` / `pyTruthyStr`: `None` and `0` (resp. `""`) are
  falsy.
- f-string line-item descriptions are abstracted to the `LineDesc` inductive,
  keeping the numeric parameters; `LineDesc.withinGrace` renders as the
  source's "Within grace period".
-/

namespace Carpark

inductive SpaceStatus
  | available
  | occupied
  | reserved
  | maintenance
  | out_of_service
deriving DecidableEq, Repr

inductive SessionStatus
  | active
  | completed
  | cancelled
deriving DecidableEq, Repr

inductive ReservationStatus
  | pending
  | confirmed
  | checked_in
  | completed
  | cancelled
  | no_show
deriving DecidableEq, Repr

inductive PaymentStatus
  | pending
  | completed
  | failed
  | refunded
deriving DecidableEq, Repr

inductive RateType
  | hourly
  | daily
  | weekly
  | monthly
  | flat
deriving DecidableEq, Repr

inductive DiscountType
  | percentage
  | fixed_amount
  | free_hours
deriving DecidableEq, Repr

inductive ChargerType
  | level1
  | level2
  | dc_fast
deriving DecidableEq, Repr

/-- Error taxonomy of core/exceptions.py; messages are elided.  `internal`
stands for a raised sqlalchemy MultipleResultsFound / NoResultFound. -/
inductive Err
  | notFound
  | validation
  | conflict
  | payment
  | internal
deriving DecidableEq, Repr

/-- models/vehicle.py VehicleType (fields the services read). -/
structure VehicleType where
  id : Nat
  name : String
deriving DecidableEq, Repr

/-- models/vehicle.py Vehicle (fields the services read). -/
structure Vehicle where
  id : Nat
  license_plate : String
  vehicle_type_id : Nat
deriving DecidableEq, Repr

/-- models/parking.py ParkingSpace (fields the services read). -/
structure ParkingSpace where
  id : Nat
  zone_id : Nat
  status : SpaceStatus
  is_ev_charging : Bool
deriving DecidableEq, Repr

/-- models/session.py ParkingSession (fields the services read). -/
structure ParkingSession where
  id : Nat
  vehicle_id : Nat
  space_id : Option Nat
  reservation_id : Option Nat
  entry_time : Int
  exit_time : Option Int
  ticket_number : Nat
  status : SessionStatus
deriving DecidableEq, Repr

/-- models/reservation.py Reservation (fields the services read). -/
structure Reservation where
  id : Nat
  user_id : Nat
  vehicle_id : Nat
  space_id : Option Nat
  zone_id : Option Nat
  start_time : Int
  end_time : Int
  status : ReservationStatus
  confirmation_number : Nat
deriving DecidableEq, Repr

/-- models/payment.py Rate (fields the services read).  Peak window bounds are
clock times of day in minutes. -/
structure Rate where
  id : Nat
  vehicle_type_id : Option Nat
  zone_id : Option Nat
  rate_type : RateType
  amount : Rat
  grace_period_minutes : Nat
  effective_from : Int
  effective_to : Option Int
  peak_multiplier : Rat
  peak_start_time : Option Int
  peak_end_time : Option Int
  is_active : Bool
deriving DecidableEq, Repr

/-- models/payment.py Discount (fields the services read). -/
structure Discount where
  id : Nat
  code : String
  discount_type : DiscountType
  value : Rat
  valid_from : Int
  valid_to : Int
  max_uses : Option Nat
  current_uses : Nat
  is_active : Bool
deriving DecidableEq, Repr

/-- models/payment.py Payment (fields the services read). -/
structure Payment where
  id : Nat
  session_id : Nat
  user_id : Option Nat
  amount : Rat
  status : PaymentStatus
  discount_id : Option Nat
  discount_amount : Rat
  total_amount : Rat
  receipt_number : Nat
  paid_at : Option Int
deriving DecidableEq, Repr

/-- models/ev_charging.py EVChargingStation (fields calculate_fee reads). -/
structure EVChargingStation where
  id : Nat
  space_id : Nat
  charger_type : ChargerType
  power_kw : Rat
  price_per_kwh : Rat
deriving DecidableEq, Repr

/-- The persistent store: one list per table plus a fresh-id source standing
for autoincrement primary keys and generated ticket / confirmation numbers. -/
structure St where
  vehicle_types : List VehicleType
  vehicles : List Vehicle
  spaces : List ParkingSpace
  sessions : List ParkingSession
  reservations : List Reservation
  rates : List Rate
  discounts : List Discount
  payments : List Payment
  stations : List EVChargingStation
  nextId : Nat
deriving DecidableEq, Repr

/-- Python truthiness of an optional integer: `None` and `0` are falsy. -/
def pyTruthy (o : Option Nat) : Bool :=
  o.getD 0 != 0

/-- Python `str.upper()` (ASCII model: uppercase each character). -/
def pyUpper (s : String) : String :=
  ⟨s.data.map Char.toUpper⟩

/-- Python truthiness of an optional string: `None` and `""` are falsy. -/
def pyTruthyStr (o : Option String) : Bool :=
  o.getD "" != ""

/-- Python `round(x, 2)`: banker's rounding (half to even) at two decimals. -/
def round2 (q : Rat) : Rat :=
  let c : Rat := q * 100
  let f : Int := ⌊c⌋
  let n : Int :=
    if c - f < 1 / 2 then f
    else if c - f > 1 / 2 then f + 1
    else if 2 ∣ f then f else f + 1
  (n : Rat) / 100

/-- The shared filter of payment.py get_applicable_rate's `base_query`:
active, effective window contains `now`, requested rate type. -/
def rateActiveAt (now : Int) (rt : RateType) (r : Rate) : Bool :=
  r.is_active && decide (r.effective_from ≤ now)
    && (match r.effective_to with
        | none => true
        | some e => decide (now ≤ e))
    && decide (r.rate_type = rt)

/-- `ORDER BY effective_from DESC LIMIT 1`: an element with maximal
`effective_from` (the first such in row order — SQL leaves ties unspecified,
this fixes one deterministic choice). -/
def latestStep (acc : Option Rate) (r : Rate) : Option Rate :=
  match acc with
  | none => some r
  | some b => if b.effective_from < r.effective_from then some r else acc

def latestEffective (l : List Rate) : Option Rate :=
  l.foldl latestStep none

/-- payment.py get_applicable_rate: 4-tier specificity resolution.  Each tier
restricts `rateActiveAt` rows and takes the latest `effective_from`; the
`if vehicle_type_id and zone_id:` guards are Python truthiness tests. -/
def get_applicable_rate (rates : List Rate) (vehicle_type_id zone_id : Option Nat)
    (rate_type : RateType) (now : Int) : Option Rate :=
  let base := rates.filter (rateActiveAt now rate_type)
  let tier1 :=
    if pyTruthy vehicle_type_id && pyTruthy zone_id then
      latestEffective (base.filter fun r =>
        decide (r.vehicle_type_id = vehicle_type_id) && decide (r.zone_id = zone_id))
    else none
  match tier1 with
  | some r => some r
  | none =>
    let tier2 :=
      if pyTruthy vehicle_type_id then
        latestEffective (base.filter fun r =>
          decide (r.vehicle_type_id = vehicle_type_id) && decide (r.zone_id = none))
      else none
    match tier2 with
    | some r => some r
    | none =>
      let tier3 :=
        if pyTruthy zone_id then
          latestEffective (base.filter fun r =>
            decide (r.vehicle_type_id = none) && decide (r.zone_id = zone_id))
        else none
      match tier3 with
      | some r => some r
      | none =>
        latestEffective (base.filter fun r =>
          decide (r.vehicle_type_id = none) && decide (r.zone_id = none))

/-- payment.py get_applicable_rates: the hourly and daily resolutions used by
the fee calculator. -/
def get_applicable_rates (rates : List Rate) (vehicle_type_id zone_id : Option Nat)
    (now : Int) : Option Rate × Option Rate :=
  (get_applicable_rate rates vehicle_type_id zone_id RateType.hourly now,
   get_applicable_rate rates vehicle_type_id zone_id RateType.daily now)

/-- Line-item descriptions of session.py calculate_fee, with the string
formatting abstracted away but the numeric parameters kept.
`withinGrace` renders as "Within grace period", `dailyCap` as
"Daily maximum cap applied (was $...)". -/
inductive LineDesc
  | withinGrace
  | parking (hours : Int) (rate : Rat)
  | peakSurcharge (multiplier : Rat)
  | dailyRate (days : Int) (dailyMax : Rat)
  | remainingTime (hours : Int)
  | dailyCap (was : Rat)
deriving DecidableEq, Repr

structure LineItem where
  description : LineDesc
  amount : Rat
deriving DecidableEq, Repr

/-- schemas/session.py FeeCalculation (discounts and tax are always 0). -/
structure FeeCalculation where
  duration_minutes : Int
  base_fee : Rat
  total : Rat
  breakdown : List LineItem
deriving DecidableEq, Repr

/-- session.py calculate_fee's grace test: `if grace_period and
duration_minutes <= grace_period` (a 0 grace period is falsy). -/
def inGracePeriod (hourly_rate : Option Rate) (duration_minutes : Int) : Bool :=
  match hourly_rate with
  | some hr =>
    hr.grace_period_minutes != 0 && decide (duration_minutes ≤ (hr.grace_period_minutes : Int))
  | none => false

/-- session.py calculate_fee: `hours = max(1, (duration_minutes + 59) // 60)`
(Python floor division). -/
def billedHours (duration_minutes : Int) : Int :=
  max 1 ((duration_minutes + 59).fdiv 60)

/-- session.py calculate_fee's peak test on the clock time of the end of the
billed interval (`end_time.time()`), with the wraparound case. -/
def inPeakWindow (peak_start peak_end current : Int) : Bool :=
  if peak_start ≤ peak_end then
    decide (peak_start ≤ current) && decide (current ≤ peak_end)
  else
    decide (current ≥ peak_start) || decide (current ≤ peak_end)

/-- session.py calculate_fee line 303: the hourly amount, with the flat $5
default when no hourly rate is configured. -/
def baseHourlyAmount (hourly_rate : Option Rate) : Rat :=
  match hourly_rate with
  | some hr => hr.amount
  | none => 5

/-- The `is_peak` / `peak_multiplier` pair of session.py calculate_fee lines
307-322: `is_peak` is the window test, the multiplier is taken from the rate
only when `is_peak` and the rate's multiplier is truthy (nonzero). -/
def peakState (hourly_rate : Option Rate) (end_time : Int) : Bool × Rat :=
  match hourly_rate with
  | some hr =>
    match hr.peak_start_time, hr.peak_end_time with
    | some ps, some pe =>
      let is_peak := inPeakWindow ps pe (end_time.fmod 1440)
      if is_peak && hr.peak_multiplier != 0 then (is_peak, hr.peak_multiplier)
      else (is_peak, 1)
    | _, _ => (false, 1)
  | none => (false, 1)

/-- session.py calculate_fee line 325: the hourly amount after the peak
multiplier. -/
def effectiveHourlyRate (hourly_rate : Option Rate) (end_time : Int) : Rat :=
  baseHourlyAmount hourly_rate * (peakState hourly_rate end_time).2

/-- session.py calculate_fee lines 357-363: the daily cap, raised by the
positive part of the EV excess over the effective hourly fee. -/
def dailyMaxAdj (daily_amount effective_hourly_rate : Rat) (hours : Int)
    (ev_hourly_rate : Option Rat) : Rat :=
  match ev_hourly_rate with
  | some ev =>
    let extra := (ev - effective_hourly_rate) * (hours : Rat)
    if 0 < extra then daily_amount + extra else daily_amount
  | none => daily_amount

/-- session.py calculate_fee, lines 289-411: the fee computation once the
session row, the resolved hourly/daily rates and the EV-equivalent hourly
rate have been fetched.  A missing hourly rate falls back to the flat $5
default; `duration_minutes` and `end_time` come from the session timestamps. -/
def fee_from_rates (duration_minutes end_time : Int)
    (hourly_rate daily_rate : Option Rate) (ev_hourly_rate : Option Rat) :
    FeeCalculation :=
  if inGracePeriod hourly_rate duration_minutes then
    { duration_minutes := duration_minutes
      base_fee := 0
      total := 0
      breakdown := [{ description := LineDesc.withinGrace, amount := 0 }] }
  else
    let base_hourly_amount := baseHourlyAmount hourly_rate
    let hours := billedHours duration_minutes
    let pk := peakState hourly_rate end_time
    let is_peak := pk.1
    let peak_multiplier := pk.2
    let effective_hourly_rate := effectiveHourlyRate hourly_rate end_time
    let base_fee := effective_hourly_rate * (hours : Rat)
    let breakdown :=
      if is_peak && peak_multiplier != 1 then
        [{ description := LineDesc.parking hours base_hourly_amount
           amount := base_hourly_amount * (hours : Rat) },
         { description := LineDesc.peakSurcharge peak_multiplier
           amount := (effective_hourly_rate - base_hourly_amount) * (hours : Rat) }]
      else
        [{ description := LineDesc.parking hours effective_hourly_rate
           amount := base_fee }]
    let total_fee := base_fee
    match daily_rate with
    | some dr =>
      let daily_max := dailyMaxAdj dr.amount effective_hourly_rate hours ev_hourly_rate
      let full_days := duration_minutes.fdiv 1440
      let remaining_minutes := duration_minutes.fmod 1440
      if 0 < full_days then
        let daily_fee := daily_max * (full_days : Rat)
        let remaining_hours : Int :=
          if 0 < remaining_minutes then max 1 ((remaining_minutes + 59).fdiv 60) else 0
        let remaining_fee : Rat :=
          if 0 < remaining_hours then
            min (effective_hourly_rate * (remaining_hours : Rat)) daily_max
          else 0
        let capped_total := daily_fee + remaining_fee
        if capped_total < total_fee then
          { duration_minutes := duration_minutes
            base_fee := base_fee
            total := round2 capped_total
            breakdown :=
              { description := LineDesc.dailyRate full_days daily_max
                amount := daily_fee } ::
              (if 0 < remaining_fee then
                [{ description := LineDesc.remainingTime remaining_hours
                   amount := remaining_fee }]
               else []) }
        else
          { duration_minutes := duration_minutes
            base_fee := base_fee
            total := round2 total_fee
            breakdown := breakdown }
      else if daily_max < total_fee then
        { duration_minutes := duration_minutes
          base_fee := base_fee
          total := round2 daily_max
          breakdown := [{ description := LineDesc.dailyCap base_fee, amount := daily_max }] }
      else
        { duration_minutes := duration_minutes
          base_fee := base_fee
          total := round2 total_fee
          breakdown := breakdown }
    | none =>
      { duration_minutes := duration_minutes
        base_fee := base_fee
        total := round2 total_fee
        breakdown := breakdown }

/-- The daily-cap rule in the words of the specification (section 4.3 step 8
and claim C4): with `full_days = durationMinutes // 1440`, if `full_days > 0`
the candidate total `daily_max * full_days + min(eff * ceil(rm / 60),
daily_max)` replaces the uncapped hourly total only when strictly lower;
with `full_days = 0` the fee is capped at `daily_max` when it exceeds it. -/
def specDailyCapTotal (uncapped daily_max eff : Rat) (durationMinutes : Int) : Rat :=
  let full_days := durationMinutes.fdiv 1440
  let remaining_minutes := durationMinutes.fmod 1440
  if 0 < full_days then
    let candidate := daily_max * (full_days : Rat) +
      min (eff * ((⌈(remaining_minutes : Rat) / 60⌉ : Int) : Rat)) daily_max
    if candidate < uncapped then candidate else uncapped
  else if daily_max < uncapped then daily_max else uncapped

/-- Set the status of the space with the given id (SQLAlchemy mutates the row
fetched by primary key; ids are unique). -/
def setSpaceStatus (spaces : List ParkingSpace) (k : Nat) (status : SpaceStatus) :
    List ParkingSpace :=
  spaces.map fun s => if s.id = k then { s with status := status } else s

/-- Set the status of the reservation with the given id. -/
def setReservationStatus (rs : List Reservation) (k : Nat) (status : ReservationStatus) :
    List Reservation :=
  rs.map fun r => if r.id = k then { r with status := status } else r

/-- `discount.current_uses += 1` on the row with the given id. -/
def bumpDiscountUses (ds : List Discount) (k : Nat) : List Discount :=
  ds.map fun d => if d.id = k then { d with current_uses := d.current_uses + 1 } else d

/-- session.py calculate_fee as a whole: session lookup, end-time and duration
computation (`end_time = exit_time or session.exit_time or now`), rate
resolution, the EV-equivalent hourly rate of lines 345-355, then the fee
computation `fee_from_rates`. -/
def calculate_fee (st : St) (session_id : Nat) (exit_time : Option Int) (now : Int) :
    Except Err FeeCalculation :=
  match st.sessions.find? (fun s => decide (s.id = session_id)) with
  | none => .error .notFound
  | some session =>
    let end_time := ((exit_time.orElse fun _ => session.exit_time).getD now)
    let duration_minutes := end_time - session.entry_time
    let vehicle_type_id : Option Nat :=
      (st.vehicles.find? fun v => decide (v.id = session.vehicle_id)).map (·.vehicle_type_id)
    let spaceRow : Option ParkingSpace :=
      session.space_id.bind fun k => st.spaces.find? fun s => decide (s.id = k)
    let zone_id : Option Nat := spaceRow.map (·.zone_id)
    let rates := get_applicable_rates st.rates vehicle_type_id zone_id now
    let ev_hourly_rate : Option Rat :=
      match spaceRow with
      | some sp =>
        if sp.is_ev_charging then
          match st.stations.find? (fun t => decide (t.space_id = sp.id)) with
          | some station =>
            let ev_rate :=
              if station.charger_type = ChargerType.level2 then
                station.price_per_kwh + 1 / 4
              else station.price_per_kwh
            some (ev_rate * station.power_kw * (4 / 5))
          | none => none
        else none
      | none => none
    .ok (fee_from_rates duration_minutes end_time rates.1 rates.2 ev_hourly_rate)

/-- schemas/payment.py DiscountValidationResponse. -/
structure DiscountValidationResponse where
  is_valid : Bool
  discount : Option Discount
  discount_amount : Option Rat
  message : Option String
deriving DecidableEq, Repr

/-- payment.py validate_discount.  Read-only: the returned state is the input
state (the source performs no mutation here); `calculate_fee` inside can
raise NotFound, which propagates. -/
def validate_discount (st : St) (code : String) (session_id : Option Nat) (now : Int) :
    Except Err (St × DiscountValidationResponse) :=
  match st.discounts.find? (fun d => decide (d.code = pyUpper code)) with
  | none =>
    .ok (st, { is_valid := false, discount := none, discount_amount := none
               message := some "Invalid discount code" })
  | some discount =>
    if !discount.is_active then
      .ok (st, { is_valid := false, discount := none, discount_amount := none
                 message := some "Discount is not active" })
    else if now < discount.valid_from then
      .ok (st, { is_valid := false, discount := none, discount_amount := none
                 message := some "Discount is not yet valid" })
    else if discount.valid_to < now then
      .ok (st, { is_valid := false, discount := none, discount_amount := none
                 message := some "Discount has expired" })
    else if pyTruthy discount.max_uses && decide (discount.max_uses.getD 0 ≤ discount.current_uses) then
      .ok (st, { is_valid := false, discount := none, discount_amount := none
                 message := some "Discount usage limit reached" })
    else if pyTruthy session_id then
      match calculate_fee st (session_id.getD 0) none now with
      | .error e => .error e
      | .ok fee_calc =>
        let discount_amount : Option Rat :=
          if discount.discount_type = DiscountType.percentage then
            some (fee_calc.total * (discount.value / 100))
          else if discount.discount_type = DiscountType.fixed_amount then
            some (min discount.value fee_calc.total)
          else none
        .ok (st, { is_valid := true, discount := some discount
                   discount_amount := discount_amount, message := none })
    else
      .ok (st, { is_valid := true, discount := some discount
                 discount_amount := none, message := none })

/-- schemas/payment.py PaymentCreate (fields process_payment reads). -/
structure PaymentCreate where
  session_id : Nat
  discount_code : Option String
  amount : Rat
deriving DecidableEq, Repr

/-- The discount block of payment.py process_payment (lines 261-271): on a
truthy discount code, validate it and — when valid — increment `current_uses`
on the validated discount, returning the discount id and amount to apply. -/
def paymentDiscountStep (st : St) (data : PaymentCreate) (now : Int) :
    Except Err (St × Option Nat × Rat) :=
  if pyTruthyStr data.discount_code then
    match validate_discount st (data.discount_code.getD "") (some data.session_id) now with
    | .error e => .error e
    | .ok (st₁, validation) =>
      if validation.is_valid then
        match validation.discount with
        | some vd =>
          .ok ({ st₁ with discounts := bumpDiscountUses st₁.discounts vd.id },
               some vd.id, validation.discount_amount.getD 0)
        | none => .ok (st₁, none, 0)
      else .ok (st₁, none, 0)
  else .ok (st, none, 0)

/-- payment.py process_payment: reject if the session is missing or already
has a COMPLETED payment; compute the fee; run the discount step (whose
`current_uses` increment precedes the tendered-amount check; a later raise is
undone by the request rollback); reject if the tendered amount is below
`max(0, total - discount_amount)`; otherwise record a COMPLETED payment. -/
def process_payment (st : St) (data : PaymentCreate) (user_id : Option Nat) (now : Int) :
    Except Err (St × Payment) :=
  match st.sessions.find? (fun s => decide (s.id = data.session_id)) with
  | none => .error .notFound
  | some _session =>
    let completed := st.payments.filter fun p =>
      decide (p.session_id = data.session_id) && decide (p.status = PaymentStatus.completed)
    if 1 < completed.length then .error .internal
    else if completed.length = 1 then .error .payment
    else
      match calculate_fee st data.session_id none now with
      | .error e => .error e
      | .ok fee_calc =>
        match paymentDiscountStep st data now with
        | .error e => .error e
        | .ok (st₂, discount_id, discount_amount) =>
          let total_amount := max 0 (fee_calc.total - discount_amount)
          if data.amount < total_amount then .error .payment
          else
            let payment : Payment :=
              { id := st₂.nextId, session_id := data.session_id, user_id := user_id
                amount := fee_calc.total, status := PaymentStatus.completed
                discount_id := discount_id, discount_amount := discount_amount
                total_amount := total_amount, receipt_number := st₂.nextId
                paid_at := some now }
            .ok ({ st₂ with payments := st₂.payments ++ [payment], nextId := st₂.nextId + 1 },
                 payment)

/-- The per-request transaction of core/dependencies.py get_db around
process_payment: commit the new store on success, roll back to the original
store when the service raises. -/
def applyPaymentRequest (st : St) (data : PaymentCreate) (user_id : Option Nat) (now : Int) :
    St × Except Err Payment :=
  match process_payment st data user_id now with
  | .ok (st', p) => (st', .ok p)
  | .error e => (st, .error e)

/-- schemas/payment.py ValidateExitResponse. -/
structure ValidateExitResponse where
  is_paid : Bool
  can_exit : Bool
  amount_due : Option Rat
  time_remaining_minutes : Option Int
deriving DecidableEq, Repr

/-- payment.py validate_exit: paid (a COMPLETED payment row exists) means the
gate opens; otherwise the amount due is the fee calculator's total. -/
def validate_exit (st : St) (ticket_number : Nat) (now : Int) :
    Except Err ValidateExitResponse :=
  match st.sessions.find? (fun s => decide (s.ticket_number = ticket_number)) with
  | none => .error .notFound
  | some session =>
    let completed := st.payments.filter fun p =>
      decide (p.session_id = session.id) && decide (p.status = PaymentStatus.completed)
    if 1 < completed.length then .error .internal
    else if completed.length = 1 then
      .ok { is_paid := true, can_exit := true, amount_due := none
            time_remaining_minutes := some 15 }
    else
      match calculate_fee st session.id none now with
      | .error e => .error e
      | .ok fee_calc =>
        .ok { is_paid := false, can_exit := false, amount_due := some fee_calc.total
              time_remaining_minutes := none }

/-- schemas/reservation.py ReservationCreate (fields create_reservation reads). -/
structure ReservationCreate where
  vehicle_id : Nat
  space_id : Option Nat
  zone_id : Option Nat
  start_time : Int
  end_time : Int
deriving DecidableEq, Repr

/-- The conflict filter of reservation.py create_reservation lines 49-66: same
space, status PENDING or CONFIRMED, and the three-branch interval condition. -/
def overlapsExisting (space_id : Nat) (start_time end_time : Int) (r : Reservation) : Bool :=
  decide (r.space_id = some space_id)
    && (decide (r.status = ReservationStatus.pending)
        || decide (r.status = ReservationStatus.confirmed))
    && ((decide (r.start_time ≤ start_time) && decide (start_time < r.end_time))
        || (decide (r.start_time < end_time) && decide (end_time ≤ r.end_time))
        || (decide (start_time ≤ r.start_time) && decide (r.end_time ≤ end_time)))

/-- reservation.py create_reservation: validate the window, and on a truthy
space_id run the conflict check, require the space to exist, and mark it
RESERVED only when it is AVAILABLE; the reservation row is always created
CONFIRMED. -/
def create_reservation (st : St) (user_id : Nat) (data : ReservationCreate) (now : Int) :
    Except Err (St × Reservation) :=
  if data.end_time ≤ data.start_time then .error .validation
  else if data.start_time < now then .error .validation
  else
    let spaceStep : Except Err St :=
      if pyTruthy data.space_id then
        let k := data.space_id.getD 0
        let conflicts := st.reservations.filter (overlapsExisting k data.start_time data.end_time)
        if 1 < conflicts.length then .error .internal
        else if conflicts.length = 1 then .error .conflict
        else
          match st.spaces.find? (fun s => decide (s.id = k)) with
          | none => .error .notFound
          | some space =>
            if space.status = SpaceStatus.available then
              .ok { st with spaces := setSpaceStatus st.spaces k SpaceStatus.reserved }
            else .ok st
      else .ok st
    match spaceStep with
    | .error e => .error e
    | .ok st₁ =>
      let r : Reservation :=
        { id := st₁.nextId, user_id := user_id, vehicle_id := data.vehicle_id
          space_id := data.space_id, zone_id := data.zone_id
          start_time := data.start_time, end_time := data.end_time
          status := ReservationStatus.confirmed, confirmation_number := st₁.nextId }
      .ok ({ st₁ with reservations := st₁.reservations ++ [r], nextId := st₁.nextId + 1 }, r)

/-- schemas/reservation.py CheckInResponse. -/
structure CheckInResponse where
  session_id : Nat
  space_assigned : Option ParkingSpace
deriving DecidableEq, Repr

/-- reservation.py check_in_reservation: requires a CONFIRMED reservation,
resolves a space (the reservation's own, or the first AVAILABLE one in its
zone), occupies it, creates an ACTIVE session and marks the reservation
CHECKED_IN.  No check against an existing active session of the vehicle. -/
def check_in_reservation (st : St) (reservation_id : Nat) (now : Int) :
    Except Err (St × CheckInResponse) :=
  match st.reservations.find? (fun r => decide (r.id = reservation_id)) with
  | none => .error .notFound
  | some reservation =>
    if reservation.status ≠ ReservationStatus.confirmed then .error .validation
    else
      let space_id : Option Nat :=
        if !pyTruthy reservation.space_id && pyTruthy reservation.zone_id then
          match (st.spaces.filter fun s =>
              decide (s.zone_id = reservation.zone_id.getD 0)
                && decide (s.status = SpaceStatus.available)).head? with
          | some sp => some sp.id
          | none => reservation.space_id
        else reservation.space_id
      let occupyStep : Except Err St :=
        if pyTruthy space_id then
          match st.spaces.find? (fun s => decide (s.id = space_id.getD 0)) with
          | none => .error .internal
          | some _ =>
            .ok { st with spaces := setSpaceStatus st.spaces (space_id.getD 0) SpaceStatus.occupied }
        else .ok st
      match occupyStep with
      | .error e => .error e
      | .ok st₁ =>
        let session : ParkingSession :=
          { id := st₁.nextId, vehicle_id := reservation.vehicle_id, space_id := space_id
            reservation_id := some reservation_id, entry_time := now, exit_time := none
            ticket_number := st₁.nextId, status := SessionStatus.active }
        let st₂ :=
          { st₁ with
            sessions := st₁.sessions ++ [session]
            reservations :=
              setReservationStatus st₁.reservations reservation_id ReservationStatus.checked_in
            nextId := st₁.nextId + 1 }
        .ok (st₂, { session_id := session.id
                    space_assigned :=
                      space_id.bind fun k => st₂.spaces.find? fun s => decide (s.id = k) })

/-- vehicle.py get_vehicle_by_plate: unique-plate lookup on the upper-cased
plate. -/
def get_vehicle_by_plate (st : St) (license_plate : String) : Option Vehicle :=
  st.vehicles.find? fun v => decide (v.license_plate = pyUpper license_plate)

/-- parking.py get_available_spaces (no zone / EV filters, as called from
create_entry with limit 1): AVAILABLE spaces in row order. -/
def get_available_spaces (st : St) (limit : Nat) : List ParkingSpace :=
  (st.spaces.filter fun s => decide (s.status = SpaceStatus.available)).take limit

/-- schemas/session.py SessionEntryRequest (fields create_entry reads). -/
structure SessionEntryRequest where
  license_plate : String
deriving DecidableEq, Repr

/-- schemas/session.py SessionEntryResponse. -/
structure SessionEntryResponse where
  session : ParkingSession
  ticket_number : Nat
  space_assigned : Option ParkingSpace
deriving DecidableEq, Repr

/-- The vehicle-resolution half of session.py create_entry (lines 32-65):
an unknown plate registers a fresh vehicle (with the first vehicle type on
file, else a new default "Car" type); a known plate is rejected when an
ACTIVE session for it already exists.  Returns the updated store and the
vehicle id to open the session for. -/
def entryVehicleStep (st : St) (data : SessionEntryRequest) : Except Err (St × Nat) :=
  match get_vehicle_by_plate st data.license_plate with
  | none =>
    let p : St × Nat :=
      match st.vehicle_types.head? with
      | some t => (st, t.id)
      | none =>
        let t : VehicleType := { id := st.nextId, name := "Car" }
        ({ st with vehicle_types := st.vehicle_types ++ [t], nextId := st.nextId + 1 }, t.id)
    let v : Vehicle :=
      { id := p.1.nextId, license_plate := pyUpper data.license_plate
        vehicle_type_id := p.2 }
    .ok ({ p.1 with vehicles := p.1.vehicles ++ [v], nextId := p.1.nextId + 1 }, v.id)
  | some vehicle =>
    let actives := st.sessions.filter fun s =>
      decide (s.vehicle_id = vehicle.id) && decide (s.status = SessionStatus.active)
    if 1 < actives.length then .error .internal
    else if actives.length = 1 then .error .validation
    else .ok (st, vehicle.id)

/-- The session-opening half of session.py create_entry (lines 67-109): create
an ACTIVE session for the resolved vehicle on the given space (if any), mark
that space OCCUPIED, and assemble the response. -/
def entryOpenSession (st₁ : St) (vehicle_id : Nat) (space_id : Option Nat) (now : Int) :
    St × SessionEntryResponse :=
  let session : ParkingSession :=
    { id := st₁.nextId, vehicle_id := vehicle_id, space_id := space_id
      reservation_id := none, entry_time := now, exit_time := none
      ticket_number := st₁.nextId, status := SessionStatus.active }
  let st₂ := { st₁ with sessions := st₁.sessions ++ [session], nextId := st₁.nextId + 1 }
  let st₃ :=
    match space_id with
    | some k => { st₂ with spaces := setSpaceStatus st₂.spaces k SpaceStatus.occupied }
    | none => st₂
  (st₃, { session := session, ticket_number := session.ticket_number
          space_assigned :=
            space_id.bind fun k => st₃.spaces.find? fun s => decide (s.id = k) })

/-- session.py create_entry: unknown plates get a freshly registered vehicle
(upper-cased plate, first vehicle type or a new default "Car" type); known
plates are rejected when they already have an ACTIVE session; then an ACTIVE
session is created on the first AVAILABLE space, which becomes OCCUPIED. -/
def create_entry (st : St) (data : SessionEntryRequest) (now : Int) :
    Except Err (St × SessionEntryResponse) :=
  match entryVehicleStep st data with
  | .error e => .error e
  | .ok (st₁, vehicle_id) =>
    .ok (entryOpenSession st₁ vehicle_id ((get_available_spaces st₁ 1).head?.map (·.id)) now)

/-- Number of ACTIVE sessions of one vehicle. -/
def countActive (st : St) (vehicle_id : Nat) : Nat :=
  (st.sessions.filter fun s =>
    decide (s.vehicle_id = vehicle_id) && decide (s.status = SessionStatus.active)).length

/-- The vehicle ids of the ACTIVE sessions of a session table. -/
def activeVehicleIds (l : List ParkingSession) : List Nat :=
  (l.filter fun s => decide (s.status = SessionStatus.active)).map (·.vehicle_id)

/-- At most one ACTIVE session per vehicle (the spec's enforced invariant):
the vehicle ids of the ACTIVE sessions are pairwise distinct. -/
def activeUnique (st : St) : Prop :=
  (activeVehicleIds st.sessions).Nodup

instance (st : St) : Decidable (activeUnique st) := by
  unfold activeUnique activeVehicleIds
  infer_instance

/-- Fixture: an empty facility with a single AVAILABLE space (id 1, zone 1). -/
def stOneSpace : St :=
  { vehicle_types := [], vehicles := []
    spaces := [{ id := 1, zone_id := 1, status := SpaceStatus.available, is_ev_charging := false }]
    sessions := [], reservations := [], rates := [], discounts := [], payments := []
    stations := [], nextId := 2 }

/-- Fixture: the facility of `stOneSpace` with one CONFIRMED reservation
for [10, 12) on space 1. -/
def stOneReservation : St :=
  { stOneSpace with
    reservations :=
      [{ id := 2, user_id := 7, vehicle_id := 1, space_id := some 1, zone_id := none
         start_time := 10, end_time := 12, status := ReservationStatus.confirmed
         confirmation_number := 2 }]
    spaces := [{ id := 1, zone_id := 1, status := SpaceStatus.reserved, is_ev_charging := false }]
    nextId := 3 }

/-- Fixture: an empty facility whose only space (id 1, zone 1) is OCCUPIED. -/
def stSpaceOccupied : St :=
  { vehicle_types := [], vehicles := []
    spaces := [{ id := 1, zone_id := 1, status := SpaceStatus.occupied, is_ev_charging := false }]
    sessions := [], reservations := [], rates := [], discounts := [], payments := []
    stations := [], nextId := 2 }

/-- Fixture: a registered vehicle (id 1, plate "AAA111") that already has an
ACTIVE session (id 2) and also holds a CONFIRMED reservation (id 3). -/
def stPreCheckIn : St :=
  { vehicle_types := []
    vehicles := [{ id := 1, license_plate := "AAA111", vehicle_type_id := 1 }]
    spaces := []
    sessions := [{ id := 2, vehicle_id := 1, space_id := none, reservation_id := none
                   entry_time := 0, exit_time := none, ticket_number := 2
                   status := SessionStatus.active }]
    reservations := [{ id := 3, user_id := 1, vehicle_id := 1, space_id := none
                       zone_id := none, start_time := 5, end_time := 60
                       status := ReservationStatus.confirmed, confirmation_number := 3 }]
    rates := [], discounts := [], payments := [], stations := [], nextId := 4 }

/-- Fixture: a rate table with one active hourly rate in each of the four
specificity tiers (for vehicle type 1 and zone 2, all effective from before
time 100, no expiry), plus an older exact-tier rate. -/
def ratesFourTiers : List Rate :=
  [{ id := 1, vehicle_type_id := some 1, zone_id := some 2, rate_type := RateType.hourly
     amount := 10, grace_period_minutes := 15, effective_from := 40, effective_to := none
     peak_multiplier := 1, peak_start_time := none, peak_end_time := none, is_active := true },
   { id := 2, vehicle_type_id := some 1, zone_id := some 2, rate_type := RateType.hourly
     amount := 12, grace_period_minutes := 15, effective_from := 50, effective_to := none
     peak_multiplier := 1, peak_start_time := none, peak_end_time := none, is_active := true },
   { id := 3, vehicle_type_id := some 1, zone_id := none, rate_type := RateType.hourly
     amount := 8, grace_period_minutes := 15, effective_from := 60, effective_to := none
     peak_multiplier := 1, peak_start_time := none, peak_end_time := none, is_active := true },
   { id := 4, vehicle_type_id := none, zone_id := some 2, rate_type := RateType.hourly
     amount := 7, grace_period_minutes := 15, effective_from := 70, effective_to := none
     peak_multiplier := 1, peak_start_time := none, peak_end_time := none, is_active := true },
   { id := 5, vehicle_type_id := none, zone_id := none, rate_type := RateType.hourly
     amount := 5, grace_period_minutes := 15, effective_from := 80, effective_to := none
     peak_multiplier := 1, peak_start_time := none, peak_end_time := none, is_active := true }]

/-- Fixture: an hourly rate of $5 with zero grace period. -/
def rGrace0 : Rate :=
  { id := 9, vehicle_type_id := none, zone_id := none, rate_type := RateType.hourly
    amount := 5, grace_period_minutes := 0, effective_from := 0, effective_to := none
    peak_multiplier := 1, peak_start_time := none, peak_end_time := none, is_active := true }

/-- Fixture: the spec's example hourly rate ($5/h, 15 min grace). -/
def rHourly5 : Rate :=
  { id := 1, vehicle_type_id := none, zone_id := none, rate_type := RateType.hourly
    amount := 5, grace_period_minutes := 15, effective_from := 0, effective_to := none
    peak_multiplier := 1, peak_start_time := none, peak_end_time := none, is_active := true }

/-- Fixture: the spec's example daily cap rate ($25/day). -/
def rDaily25 : Rate :=
  { id := 2, vehicle_type_id := none, zone_id := none, rate_type := RateType.daily
    amount := 25, grace_period_minutes := 15, effective_from := 0, effective_to := none
    peak_multiplier := 1, peak_start_time := none, peak_end_time := none, is_active := true }

/-- Fixture: an hourly rate with a peak window 8:00-10:00 and multiplier 0. -/
def rPeak0 : Rate :=
  { id := 3, vehicle_type_id := none, zone_id := none, rate_type := RateType.hourly
    amount := 6, grace_period_minutes := 15, effective_from := 0, effective_to := none
    peak_multiplier := 0, peak_start_time := some 480, peak_end_time := some 600
    is_active := true }

/-- Fixture: an hourly rate with a peak window 8:00-10:00 and multiplier 1.5. -/
def rPeak15 : Rate :=
  { id := 4, vehicle_type_id := none, zone_id := none, rate_type := RateType.hourly
    amount := 4, grace_period_minutes := 15, effective_from := 0, effective_to := none
    peak_multiplier := 3 / 2, peak_start_time := some 480, peak_end_time := some 600
    is_active := true }

/-- Fixture: a facility with one ACTIVE session (id 1, ticket 1) that already
has a COMPLETED payment row. -/
def stPaid : St :=
  { vehicle_types := [], vehicles := [], spaces := []
    sessions := [{ id := 1, vehicle_id := 1, space_id := none, reservation_id := none
                   entry_time := 0, exit_time := none, ticket_number := 1
                   status := SessionStatus.active }]
    reservations := [], rates := [], discounts := []
    payments := [{ id := 2, session_id := 1, user_id := none, amount := 5
                   status := PaymentStatus.completed, discount_id := none
                   discount_amount := 0, total_amount := 5, receipt_number := 2
                   paid_at := some 60 }]
    stations := [], nextId := 3 }

end Carpark

namespace Carpark

theorem latestStep_foldl (l : List Rate) (b : Rate) :
    ∃ r, List.foldl latestStep (some b) l = some r ∧ (r = b ∨ r ∈ l) ∧
      b.effective_from ≤ r.effective_from ∧
      ∀ x ∈ l, x.effective_from ≤ r.effective_from := by
  induction l generalizing b with
  | nil => exact ⟨b, rfl, Or.inl rfl, le_refl _, by simp⟩
  | cons x xs ih =>
    simp only [List.foldl_cons, latestStep]
    by_cases hx : b.effective_from < x.effective_from
    · rw [if_pos hx]
      obtain ⟨r, hfold, hmem, hle, hall⟩ := ih x
      refine ⟨r, hfold, ?_, by omega, ?_⟩
      · rcases hmem with h | h
        · exact Or.inr (by simp [h])
        · exact Or.inr (by simp [h])
      · intro y hy
        rcases List.mem_cons.mp hy with h | h
        · subst h; omega
        · exact hall y h
    · rw [if_neg hx]
      obtain ⟨r, hfold, hmem, hle, hall⟩ := ih b
      refine ⟨r, hfold, ?_, hle, ?_⟩
      · rcases hmem with h | h
        · exact Or.inl h
        · exact Or.inr (by simp [h])
      · intro y hy
        rcases List.mem_cons.mp hy with h | h
        · subst h; omega
        · exact hall y h

theorem latestEffective_spec (l : List Rate) (hne : l ≠ []) :
    ∃ r, latestEffective l = some r ∧ r ∈ l ∧
      ∀ x ∈ l, x.effective_from ≤ r.effective_from := by
  cases l with
  | nil => exact absurd rfl hne
  | cons a t =>
    obtain ⟨r, hfold, hmem, hleb, hall⟩ := latestStep_foldl t a
    refine ⟨r, ?_, ?_, ?_⟩
    · simpa [latestEffective, latestStep] using hfold
    · rcases hmem with h | h <;> simp [h]
    · intro x hx
      rcases List.mem_cons.mp hx with h | h
      · subst h; exact hleb
      · exact hall x h

/-- C2: whenever the rate table holds an active exact-tier rate (matching
vehicle type and zone, active, effective at `now`, right rate type), the
resolver returns an exact-tier rate — never a less specific one — and among
the exact-tier matches it returns one with the latest effective_from.  This
covers in particular any table with active rates at all four tiers. -/
theorem C2_rate_specificity (rates : List Rate) (v z : Nat) (rt : RateType) (now : Int)
    (hv : v ≠ 0) (hz : z ≠ 0) (hr : Rate) (hmem : hr ∈ rates)
    (hact : rateActiveAt now rt hr = true)
    (hvt : hr.vehicle_type_id = some v) (hzn : hr.zone_id = some z) :
    ∃ r, get_applicable_rate rates (some v) (some z) rt now = some r ∧
      r.vehicle_type_id = some v ∧ r.zone_id = some z ∧
      rateActiveAt now rt r = true ∧
      ∀ r' ∈ rates, rateActiveAt now rt r' = true → r'.vehicle_type_id = some v →
        r'.zone_id = some z → r'.effective_from ≤ r.effective_from := by
  have hmem1 : hr ∈ ((rates.filter (rateActiveAt now rt)).filter fun r =>
      decide (r.vehicle_type_id = some v) && decide (r.zone_id = some z)) :=
    List.mem_filter.mpr ⟨List.mem_filter.mpr ⟨hmem, hact⟩, by simp [hvt, hzn]⟩
  have hne : ((rates.filter (rateActiveAt now rt)).filter fun r =>
      decide (r.vehicle_type_id = some v) && decide (r.zone_id = some z)) ≠ [] := by
    intro h
    rw [h] at hmem1
    exact absurd hmem1 (List.not_mem_nil hr)
  obtain ⟨r, hle, hrmem, hmax⟩ := latestEffective_spec _ hne
  have hr2 := List.mem_filter.mp hrmem
  have hr3 := List.mem_filter.mp hr2.1
  have hflt : r.vehicle_type_id = some v ∧ r.zone_id = some z := by
    have h := hr2.2
    simp only [Bool.and_eq_true, decide_eq_true_eq] at h
    exact h
  refine ⟨r, ?_, hflt.1, hflt.2, hr3.2, ?_⟩
  · unfold get_applicable_rate
    simp only [pyTruthy, Option.getD]
    rw [if_pos (by simp [hv, hz])]
    rw [hle]
  · intro r' hr' hact' hvt' hzn'
    exact hmax r' (List.mem_filter.mpr ⟨List.mem_filter.mpr ⟨hr', hact'⟩, by simp [hvt', hzn']⟩)

/-- Witness for C2: on the four-tier fixture, resolving (vehicle type 1,
zone 2, hourly) at time 100 yields an exact-tier rate with the latest
effective_from among exact matches. -/
theorem C2_rate_specificity_witness :
    ∃ r, get_applicable_rate ratesFourTiers (some 1) (some 2) RateType.hourly 100 = some r ∧
      r.vehicle_type_id = some 1 ∧ r.zone_id = some 2 ∧
      rateActiveAt 100 RateType.hourly r = true ∧
      ∀ r' ∈ ratesFourTiers, rateActiveAt 100 RateType.hourly r' = true →
        r'.vehicle_type_id = some 1 → r'.zone_id = some 2 →
        r'.effective_from ≤ r.effective_from :=
  C2_rate_specificity ratesFourTiers 1 2 RateType.hourly 100 (by decide) (by decide)
    { id := 2, vehicle_type_id := some 1, zone_id := some 2, rate_type := RateType.hourly
      amount := 12, grace_period_minutes := 15, effective_from := 50, effective_to := none
      peak_multiplier := 1, peak_start_time := none, peak_end_time := none, is_active := true }
    (by simp [ratesFourTiers]) (by decide) rfl rfl

theorem overlapsExisting_iff (k : Nat) (s2 e2 : Int) (r1 : Reservation)
    (hsp : r1.space_id = some k)
    (hstat : r1.status = ReservationStatus.pending ∨ r1.status = ReservationStatus.confirmed)
    (h1 : r1.start_time < r1.end_time) (h2 : s2 < e2) :
    overlapsExisting k s2 e2 r1 = true ↔ (r1.start_time < e2 ∧ s2 < r1.end_time) := by
  unfold overlapsExisting
  rcases hstat with h | h <;>
    simp [hsp, h, Bool.and_eq_true, Bool.or_eq_true, decide_eq_true_eq] <;>
    constructor <;> intro hh <;> omega

/-- C1: for a request on a space holding one PENDING/CONFIRMED reservation
[s1, e1), create_reservation raises ConflictError for [s2, e2) iff
s1 < e2 and s2 < e1 (the three-branch OR of the source is exactly the
half-open intersection test); and the boundary-touching reservations
[10, 12) and [12, 14) on the same space both succeed. -/
theorem C1_conflict_iff_half_open_overlap :
    (∀ (st : St) (uid k : Nat) (r1 : Reservation) (sp : ParkingSpace)
        (data : ReservationCreate) (now : Int),
      st.reservations = [r1] →
      r1.space_id = some k →
      (r1.status = ReservationStatus.pending ∨ r1.status = ReservationStatus.confirmed) →
      r1.start_time < r1.end_time →
      k ≠ 0 →
      data.space_id = some k →
      data.start_time < data.end_time →
      now ≤ data.start_time →
      st.spaces.find? (fun s => decide (s.id = k)) = some sp →
      (create_reservation st uid data now = .error .conflict ↔
        (r1.start_time < data.end_time ∧ data.start_time < r1.end_time))) ∧
    (create_reservation stOneSpace 7
        { vehicle_id := 1, space_id := some 1, zone_id := none
          start_time := 10, end_time := 12 } 0).isOk = true ∧
    ((create_reservation stOneSpace 7
        { vehicle_id := 1, space_id := some 1, zone_id := none
          start_time := 10, end_time := 12 } 0).bind fun p =>
      create_reservation p.1 7
        { vehicle_id := 1, space_id := some 1, zone_id := none
          start_time := 12, end_time := 14 } 0).isOk = true := by
  refine ⟨?_, rfl, rfl⟩
  intro st uid k r1 sp data now hres hsp1 hstat h1 hk hdk h2 hnow hfind
  unfold create_reservation
  rw [if_neg (by omega), if_neg (by omega)]
  rw [← overlapsExisting_iff k data.start_time data.end_time r1 hsp1 hstat h1 h2]
  simp only [hdk, pyTruthy, Option.getD, hres]
  cases hov : overlapsExisting k data.start_time data.end_time r1 <;>
    simp [hov, hk, List.filter, hfind]
  all_goals split <;> try simp
  all_goals (rename_i e heq; split at heq <;> simp_all)

/-- Witness for C1: on a space with a CONFIRMED reservation [10, 12), a
request for [11, 13) is rejected with ConflictError. -/
theorem C1_conflict_iff_half_open_overlap_witness :
    create_reservation stOneReservation 7
      { vehicle_id := 1, space_id := some 1, zone_id := none
        start_time := 11, end_time := 13 } 0 = .error .conflict := by
  have h := C1_conflict_iff_half_open_overlap.1 stOneReservation 7 1
    { id := 2, user_id := 7, vehicle_id := 1, space_id := some 1, zone_id := none
      start_time := 10, end_time := 12, status := ReservationStatus.confirmed
      confirmation_number := 2 }
    { id := 1, zone_id := 1, status := SpaceStatus.reserved, is_ev_charging := false }
    { vehicle_id := 1, space_id := some 1, zone_id := none
      start_time := 11, end_time := 13 } 0
    rfl rfl (Or.inr rfl) (by decide) (by decide) rfl (by decide) (by decide) rfl
  exact h.mpr (by decide)


/-- C9: create_reservation with an explicit space id does not require the
space to be AVAILABLE: whatever its status, with valid future times and no
overlapping PENDING/CONFIRMED reservation the reservation is created
CONFIRMED, and the space is switched to RESERVED exactly when it was
AVAILABLE, otherwise the space table is untouched. -/
theorem C9_reservation_ignores_space_status
    (st : St) (uid k : Nat) (sp : ParkingSpace) (data : ReservationCreate) (now : Int)
    (hk : k ≠ 0)
    (hdk : data.space_id = some k)
    (h2 : data.start_time < data.end_time)
    (hnow : now ≤ data.start_time)
    (hfind : st.spaces.find? (fun s => decide (s.id = k)) = some sp)
    (hnoc : ∀ r ∈ st.reservations, overlapsExisting k data.start_time data.end_time r = false) :
    ∃ st' res, create_reservation st uid data now = .ok (st', res) ∧
      res.status = ReservationStatus.confirmed ∧
      st'.spaces = (if sp.status = SpaceStatus.available
        then setSpaceStatus st.spaces k SpaceStatus.reserved else st.spaces) := by
  have hfilt : st.reservations.filter (overlapsExisting k data.start_time data.end_time) = [] := by
    rw [List.filter_eq_nil_iff]
    intro r hr
    simp [hnoc r hr]
  unfold create_reservation
  rw [if_neg (by omega), if_neg (by omega)]
  simp only [hdk, pyTruthy, Option.getD, hfilt]
  rw [if_pos (by simp [hk])]
  simp only [List.length_nil, hfind]
  by_cases hst : sp.status = SpaceStatus.available
  · rw [if_pos hst, if_pos hst]
    exact ⟨_, _, rfl, rfl, rfl⟩
  · rw [if_neg hst, if_neg hst]
    exact ⟨_, _, rfl, rfl, rfl⟩

/-- Witness for C9: reserving the OCCUPIED space of `stSpaceOccupied` for
[10, 12) succeeds with a CONFIRMED reservation and leaves the space table
unchanged. -/
theorem C9_reservation_ignores_space_status_witness :
    ∃ st' res, create_reservation stSpaceOccupied 7
        { vehicle_id := 1, space_id := some 1, zone_id := none
          start_time := 10, end_time := 12 } 0 = .ok (st', res) ∧
      res.status = ReservationStatus.confirmed ∧
      st'.spaces = (if ParkingSpace.status
          { id := 1, zone_id := 1, status := SpaceStatus.occupied, is_ev_charging := false } =
          SpaceStatus.available
        then setSpaceStatus stSpaceOccupied.spaces 1 SpaceStatus.reserved
        else stSpaceOccupied.spaces) :=
  C9_reservation_ignores_space_status stSpaceOccupied 7 1
    { id := 1, zone_id := 1, status := SpaceStatus.occupied, is_ev_charging := false }
    { vehicle_id := 1, space_id := some 1, zone_id := none, start_time := 10, end_time := 12 }
    0 (by decide) rfl (by decide) (by decide) rfl (by intro r hr; simp [stSpaceOccupied] at hr)


theorem entryOpenSession_spec (st₁ : St) (vid : Nat) (sid : Option Nat) (now : Int) :
    (entryOpenSession st₁ vid sid now).1.sessions =
        st₁.sessions ++ [(entryOpenSession st₁ vid sid now).2.session] ∧
      (entryOpenSession st₁ vid sid now).2.session.status = SessionStatus.active ∧
      (entryOpenSession st₁ vid sid now).2.session.vehicle_id = vid ∧
      (entryOpenSession st₁ vid sid now).1.vehicles = st₁.vehicles ∧
      (entryOpenSession st₁ vid sid now).1.vehicle_types = st₁.vehicle_types := by
  cases sid <;> exact ⟨rfl, rfl, rfl, rfl, rfl⟩

theorem create_entry_ok_of_step (st : St) (data : SessionEntryRequest) (now : Int)
    (st₁ : St) (vid : Nat) (hstep : entryVehicleStep st data = .ok (st₁, vid)) :
    create_entry st data now =
      .ok (entryOpenSession st₁ vid ((get_available_spaces st₁ 1).head?.map (·.id)) now) := by
  unfold create_entry
  rw [hstep]

theorem entryVehicleStep_none_nil (st : St) (data : SessionEntryRequest)
    (hnone : get_vehicle_by_plate st data.license_plate = none)
    (htypes : st.vehicle_types = []) :
    entryVehicleStep st data = .ok
      ({ st with
          vehicle_types := st.vehicle_types ++ [{ id := st.nextId, name := "Car" }]
          vehicles := st.vehicles ++
            [{ id := st.nextId + 1, license_plate := pyUpper data.license_plate
               vehicle_type_id := st.nextId }]
          nextId := st.nextId + 1 + 1 }, st.nextId + 1) := by
  unfold entryVehicleStep
  rw [hnone, htypes]
  rfl

theorem entryVehicleStep_none_cons (st : St) (data : SessionEntryRequest)
    (t : VehicleType) (ts : List VehicleType)
    (hnone : get_vehicle_by_plate st data.license_plate = none)
    (htypes : st.vehicle_types = t :: ts) :
    entryVehicleStep st data = .ok
      ({ st with
          vehicles := st.vehicles ++
            [{ id := st.nextId, license_plate := pyUpper data.license_plate
               vehicle_type_id := t.id }]
          nextId := st.nextId + 1 }, st.nextId) := by
  unfold entryVehicleStep
  rw [hnone]
  have h : st.vehicle_types.head? = some t := by rw [htypes]; rfl
  rw [h]

theorem count_activeVehicleIds (l : List ParkingSession) (v : Nat) :
    (activeVehicleIds l).count v =
      (l.filter fun s =>
        decide (s.vehicle_id = v) && decide (s.status = SessionStatus.active)).length := by
  induction l with
  | nil => rfl
  | cons s t ih =>
    by_cases h1 : s.status = SessionStatus.active <;> by_cases h2 : s.vehicle_id = v <;>
      simp [activeVehicleIds, List.filter_cons, h1, h2, List.count_cons, ih] <;>
      simp [activeVehicleIds] at ih <;> omega

theorem activeVehicleIds_append (l : List ParkingSession) (s : ParkingSession)
    (hs : s.status = SessionStatus.active) :
    activeVehicleIds (l ++ [s]) = activeVehicleIds l ++ [s.vehicle_id] := by
  simp [activeVehicleIds, List.filter_append, hs]

theorem mem_activeVehicleIds (l : List ParkingSession) (v : Nat) :
    v ∈ activeVehicleIds l ↔
      ∃ s ∈ l, s.status = SessionStatus.active ∧ s.vehicle_id = v := by
  simp only [activeVehicleIds, List.mem_map, List.mem_filter, decide_eq_true_eq]
  constructor
  · rintro ⟨s, ⟨hm, ha⟩, hv⟩
    exact ⟨s, hm, ha, hv⟩
  · rintro ⟨s, hm, ha, hv⟩
    exact ⟨s, ⟨hm, ha⟩, hv⟩

theorem entryVehicleStep_ok (st : St) (data : SessionEntryRequest) (st₁ : St) (vid : Nat)
    (hwf : ∀ s ∈ st.sessions, s.vehicle_id < st.nextId)
    (hok : entryVehicleStep st data = .ok (st₁, vid)) :
    st₁.sessions = st.sessions ∧ vid ∉ activeVehicleIds st.sessions := by
  cases hveh : get_vehicle_by_plate st data.license_plate with
  | none =>
    cases htypes : st.vehicle_types with
    | nil =>
      rw [entryVehicleStep_none_nil st data hveh htypes] at hok
      simp only [Except.ok.injEq, Prod.mk.injEq] at hok
      obtain ⟨hst, hv⟩ := hok
      subst hst
      refine ⟨rfl, ?_⟩
      intro hmem
      obtain ⟨s, hm, -, hvv⟩ := (mem_activeVehicleIds _ _).mp hmem
      have := hwf s hm
      omega
    | cons t ts =>
      rw [entryVehicleStep_none_cons st data t ts hveh htypes] at hok
      simp only [Except.ok.injEq, Prod.mk.injEq] at hok
      obtain ⟨hst, hv⟩ := hok
      subst hst
      refine ⟨rfl, ?_⟩
      intro hmem
      obtain ⟨s, hm, -, hvv⟩ := (mem_activeVehicleIds _ _).mp hmem
      have := hwf s hm
      omega
  | some vehicle =>
    simp only [entryVehicleStep, hveh] at hok
    split at hok
    · simp at hok
    · split at hok
      · simp at hok
      · rename_i hlt hne
        simp only [Except.ok.injEq, Prod.mk.injEq] at hok
        obtain ⟨hst, hv⟩ := hok
        subst hst
        subst hv
        refine ⟨rfl, ?_⟩
        intro hmem
        have hcnt := count_activeVehicleIds st.sessions vehicle.id
        have := List.count_pos_iff.mpr hmem
        omega

/-- C5 (amended): the at-most-one-ACTIVE-session-per-vehicle invariant is
preserved by create_entry (which also rejects a registered plate that already
has an ACTIVE session with ValidationError) — but not by reservation
check-in, which performs no such check (see the counterexample). -/
theorem C5_entry_guard_single_active_session :
    (∀ (st : St) (data : SessionEntryRequest) (now : Int) (st' : St)
        (resp : SessionEntryResponse),
      (∀ s ∈ st.sessions, s.vehicle_id < st.nextId) →
      activeUnique st →
      create_entry st data now = .ok (st', resp) →
      activeUnique st') ∧
    (∀ (st : St) (data : SessionEntryRequest) (now : Int) (vehicle : Vehicle),
      get_vehicle_by_plate st data.license_plate = some vehicle →
      (∃ s ∈ st.sessions, s.vehicle_id = vehicle.id ∧ s.status = SessionStatus.active) →
      activeUnique st →
      create_entry st data now = .error .validation) := by
  constructor
  · intro st data now st' resp hwf hu hok
    unfold create_entry at hok
    cases hstep : entryVehicleStep st data with
    | error e =>
      rw [hstep] at hok
      simp at hok
    | ok p =>
      obtain ⟨st₁, vid⟩ := p
      obtain ⟨hsess, hnot⟩ := entryVehicleStep_ok st data st₁ vid hwf hstep
      rw [hstep] at hok
      simp only [Except.ok.injEq] at hok
      have hst : (entryOpenSession st₁ vid
          ((get_available_spaces st₁ 1).head?.map (·.id)) now).1 = st' := congrArg Prod.fst hok
      obtain ⟨hs1, hs2, hs3, -, -⟩ := entryOpenSession_spec st₁ vid
        ((get_available_spaces st₁ 1).head?.map (·.id)) now
      rw [← hst]
      unfold activeUnique
      rw [hs1, hsess, activeVehicleIds_append _ _ hs2]
      simp only [List.nodup_append, List.nodup_cons, List.not_mem_nil, not_false_iff,
        List.nodup_nil, and_true, List.disjoint_singleton, true_and]
      rw [hs3]
      exact ⟨hu, hnot⟩
  · intro st data now vehicle hveh hex hu
    have hle : (st.sessions.filter fun s =>
        decide (s.vehicle_id = vehicle.id) &&
          decide (s.status = SessionStatus.active)).length ≤ 1 := by
      have h1 := List.nodup_iff_count_le_one.mp hu vehicle.id
      rw [count_activeVehicleIds] at h1
      exact h1
    have hge : 0 < (st.sessions.filter fun s =>
        decide (s.vehicle_id = vehicle.id) &&
          decide (s.status = SessionStatus.active)).length := by
      obtain ⟨s, hm, hv, ha⟩ := hex
      have hmf : s ∈ st.sessions.filter fun s =>
          decide (s.vehicle_id = vehicle.id) && decide (s.status = SessionStatus.active) :=
        List.mem_filter.mpr ⟨hm, by simp [hv, ha]⟩
      exact List.length_pos.mpr (List.ne_nil_of_mem hmf)
    simp only [create_entry, entryVehicleStep, hveh]
    rw [if_neg (by omega), if_pos (by omega)]

/-- Witness for C5: a second entry for plate "AAA111", which already has the
ACTIVE session of `stPreCheckIn`, is rejected with ValidationError. -/
theorem C5_entry_guard_single_active_session_witness :
    create_entry stPreCheckIn { license_plate := "AAA111" } 0 = .error .validation :=
  C5_entry_guard_single_active_session.2 stPreCheckIn { license_plate := "AAA111" } 0
    { id := 1, license_plate := "AAA111", vehicle_type_id := 1 }
    (by decide)
    ⟨{ id := 2, vehicle_id := 1, space_id := none, reservation_id := none
       entry_time := 0, exit_time := none, ticket_number := 2
       status := SessionStatus.active }, by simp [stPreCheckIn], rfl, rfl⟩
    (by decide)

/-- Counterexample for C5: `stPreCheckIn` satisfies the invariant, yet
checking in its CONFIRMED reservation succeeds and leaves vehicle 1 with two
ACTIVE sessions — reservation check-in does not preserve the invariant. -/
theorem C5_checkin_double_active_counterexample :
    activeUnique stPreCheckIn ∧
    (check_in_reservation stPreCheckIn 3 7).map (fun p => countActive p.1 1) = Except.ok 2 ∧
    (check_in_reservation stPreCheckIn 3 7).map (fun p => decide (activeUnique p.1)) =
      Except.ok false :=
  ⟨by decide, rfl, rfl⟩

/-- C10: create_entry for a plate with no registered vehicle never raises the
duplicate-active-session ValidationError: it always succeeds, silently
registering a vehicle under the upper-cased plate (typed with the first
vehicle type on file, else a freshly created default "Car" type) and creating
one ACTIVE session for it. -/
theorem C10_entry_unknown_plate_registers_vehicle
    (st : St) (data : SessionEntryRequest) (now : Int)
    (hnone : get_vehicle_by_plate st data.license_plate = none) :
    ∃ p : St × SessionEntryResponse, create_entry st data now = .ok p ∧
      p.2.session.status = SessionStatus.active ∧
      (∃ v ∈ p.1.vehicles, v.license_plate = pyUpper data.license_plate ∧
         p.2.session.vehicle_id = v.id) ∧
      p.1.sessions = st.sessions ++ [p.2.session] ∧
      (∀ t, st.vehicle_types.head? = some t →
        ∃ v ∈ p.1.vehicles, p.2.session.vehicle_id = v.id ∧ v.vehicle_type_id = t.id) ∧
      (st.vehicle_types = [] →
        ∃ t ∈ p.1.vehicle_types, t.name = "Car" ∧
          ∃ v ∈ p.1.vehicles, p.2.session.vehicle_id = v.id ∧ v.vehicle_type_id = t.id) := by
  cases htypes : st.vehicle_types with
  | nil =>
    refine ⟨_, create_entry_ok_of_step st data now _ _
      (entryVehicleStep_none_nil st data hnone htypes), ?_, ?_, ?_, ?_, ?_⟩
    · exact (entryOpenSession_spec _ _ _ _).2.1
    · rw [(entryOpenSession_spec _ _ _ _).2.2.2.1]
      exact ⟨{ id := st.nextId + 1, license_plate := pyUpper data.license_plate
               vehicle_type_id := st.nextId }, by simp, rfl,
             (entryOpenSession_spec _ _ _ _).2.2.1⟩
    · exact (entryOpenSession_spec _ _ _ _).1
    · intro t ht
      simp [htypes] at ht
    · intro _
      rw [(entryOpenSession_spec _ _ _ _).2.2.2.2,
          (entryOpenSession_spec _ _ _ _).2.2.2.1]
      exact ⟨{ id := st.nextId, name := "Car" }, by simp, rfl,
        { id := st.nextId + 1, license_plate := pyUpper data.license_plate
          vehicle_type_id := st.nextId }, by simp,
        (entryOpenSession_spec _ _ _ _).2.2.1, rfl⟩
  | cons t ts =>
    refine ⟨_, create_entry_ok_of_step st data now _ _
      (entryVehicleStep_none_cons st data t ts hnone htypes), ?_, ?_, ?_, ?_, ?_⟩
    · exact (entryOpenSession_spec _ _ _ _).2.1
    · rw [(entryOpenSession_spec _ _ _ _).2.2.2.1]
      exact ⟨{ id := st.nextId, license_plate := pyUpper data.license_plate
               vehicle_type_id := t.id }, by simp, rfl,
             (entryOpenSession_spec _ _ _ _).2.2.1⟩
    · exact (entryOpenSession_spec _ _ _ _).1
    · intro t' ht'
      simp only [htypes, List.head?, Option.some.injEq] at ht'
      subst ht'
      rw [(entryOpenSession_spec _ _ _ _).2.2.2.1]
      exact ⟨{ id := st.nextId, license_plate := pyUpper data.license_plate
               vehicle_type_id := t.id }, by simp,
             (entryOpenSession_spec _ _ _ _).2.2.1, rfl⟩
    · intro hemp
      simp [htypes] at hemp

/-- Witness for C10: an entry for unknown plate "abc" on the empty facility
succeeds and registers the vehicle under "ABC". -/
theorem C10_entry_unknown_plate_registers_vehicle_witness :
    ∃ p : St × SessionEntryResponse,
      create_entry stOneSpace { license_plate := "abc" } 0 = .ok p ∧
      p.2.session.status = SessionStatus.active ∧
      (∃ v ∈ p.1.vehicles, v.license_plate = pyUpper "abc" ∧
         p.2.session.vehicle_id = v.id) ∧
      p.1.sessions = stOneSpace.sessions ++ [p.2.session] ∧
      (∀ t, stOneSpace.vehicle_types.head? = some t →
        ∃ v ∈ p.1.vehicles, p.2.session.vehicle_id = v.id ∧ v.vehicle_type_id = t.id) ∧
      (stOneSpace.vehicle_types = [] →
        ∃ t ∈ p.1.vehicle_types, t.name = "Car" ∧
          ∃ v ∈ p.1.vehicles, p.2.session.vehicle_id = v.id ∧ v.vehicle_type_id = t.id) :=
  C10_entry_unknown_plate_registers_vehicle stOneSpace { license_plate := "abc" } 0 rfl


theorem round2_intCast (n : Int) : round2 ((n : Rat)) = n := by
  rw [round2]
  simp only [show ((n : Rat) * 100) = ((100 * n : Int) : Rat) from by push_cast; ring,
    Int.floor_intCast, sub_self]
  rw [if_pos (by norm_num)]
  push_cast
  ring

theorem dailyMaxAdj_ge (da eff : Rat) (hours : Int) (ev : Option Rat) :
    da ≤ dailyMaxAdj da eff hours ev := by
  cases ev with
  | none => exact le_refl _
  | some e =>
    show da ≤ (if 0 < (e - eff) * (hours : Rat) then da + (e - eff) * (hours : Rat) else da)
    by_cases h : 0 < (e - eff) * (hours : Rat)
    · rw [if_pos h]
      linarith
    · rw [if_neg h]

theorem ceil_div_sixty (m : Int) : (⌈(m : Rat) / 60⌉ : Int) = (m + 59).fdiv 60 := by
  rw [Int.fdiv_eq_ediv _ (by norm_num)]
  have h1 : ((m : Rat)) / 60 = -(((-m : Int) : Rat) / ((60 : Nat) : Rat)) := by
    push_cast
    ring
  rw [h1, Int.ceil_neg, Rat.floor_intCast_div_natCast]
  omega

theorem remaining_fee_eq (rm : Int) (eff dm : Rat) (hrm : 0 ≤ rm) (hdm : 0 ≤ dm) :
    (if 0 < (if 0 < rm then max 1 ((rm + 59).fdiv 60) else 0) then
        min (eff * ((if 0 < rm then max 1 ((rm + 59).fdiv 60) else 0) : Int) : Rat) dm
      else 0) =
      min (eff * ((⌈(rm : Rat) / 60⌉ : Int) : Rat)) dm := by
  by_cases h : 0 < rm
  · have h1 : (1 : Int) ≤ (rm + 59).fdiv 60 := by
      rw [Int.fdiv_eq_ediv _ (by norm_num)]
      omega
    have h2 : max 1 ((rm + 59).fdiv 60) = (rm + 59).fdiv 60 := max_eq_right h1
    rw [if_pos h, h2, if_pos (by omega), ceil_div_sixty]
  · have h0 : rm = 0 := by omega
    subst h0
    norm_num
    exact hdm

theorem fee_total_eq_specDailyCap (d end_time : Int) (hr : Option Rate) (dr : Rate)
    (ev : Option Rat) (hd : 0 ≤ d) (hdr : 0 ≤ dr.amount)
    (hgrace : inGracePeriod hr d = false) :
    (fee_from_rates d end_time hr (some dr) ev).total =
      round2 (specDailyCapTotal
        (effectiveHourlyRate hr end_time * (billedHours d : Rat))
        (dailyMaxAdj dr.amount (effectiveHourlyRate hr end_time) (billedHours d) ev)
        (effectiveHourlyRate hr end_time) d) := by
  have hdm : (0 : Rat) ≤ dailyMaxAdj dr.amount (effectiveHourlyRate hr end_time)
      (billedHours d) ev :=
    le_trans hdr (dailyMaxAdj_ge _ _ _ _)
  have hrm : 0 ≤ d.fmod 1440 := by
    rw [Int.fmod_eq_emod _ (by norm_num)]
    exact Int.emod_nonneg d (by norm_num)
  simp only [fee_from_rates, specDailyCapTotal, hgrace, Bool.false_eq_true, if_false]
  rw [← remaining_fee_eq (d.fmod 1440) (effectiveHourlyRate hr end_time)
    (dailyMaxAdj dr.amount (effectiveHourlyRate hr end_time) (billedHours d) ev) hrm hdm]
  split_ifs <;> rfl

theorem billedHours_ge_one (d : Int) : 1 ≤ billedHours d := le_max_left 1 _

theorem round2_ge_hundredth (q : Rat) (h : 1 / 100 ≤ q) : 0 < round2 q := by
  unfold round2
  have hf : (1 : Int) ≤ ⌊q * 100⌋ := by
    rw [Int.le_floor]
    push_cast
    linarith
  have hn : (1 : Int) ≤
      (if q * 100 - ⌊q * 100⌋ < 1 / 2 then ⌊q * 100⌋
       else if q * 100 - ⌊q * 100⌋ > 1 / 2 then ⌊q * 100⌋ + 1
       else if 2 ∣ ⌊q * 100⌋ then ⌊q * 100⌋ else ⌊q * 100⌋ + 1) := by
    split_ifs <;> omega
  have : (0 : Rat) <
      ((if q * 100 - ⌊q * 100⌋ < 1 / 2 then ⌊q * 100⌋
        else if q * 100 - ⌊q * 100⌋ > 1 / 2 then ⌊q * 100⌋ + 1
        else if 2 ∣ ⌊q * 100⌋ then ⌊q * 100⌋ else ⌊q * 100⌋ + 1 : Int) : Rat) := by
    exact_mod_cast lt_of_lt_of_le zero_lt_one (by exact_mod_cast hn)
  positivity

theorem peakState_snd_ge_one (hr : Rate) (end_time : Int)
    (hpm : 1 ≤ hr.peak_multiplier) :
    1 ≤ (peakState (some hr) end_time).2 := by
  cases hps : hr.peak_start_time with
  | none => simp [peakState, hps]
  | some ps =>
    cases hpe : hr.peak_end_time with
    | none => simp [peakState, hps, hpe]
    | some pe =>
      simp only [peakState, hps, hpe]
      split
      · exact hpm
      · exact le_refl _

theorem effectiveHourlyRate_ge (hr : Rate) (end_time : Int)
    (hamt : 1 / 100 ≤ hr.amount) (hpm : 1 ≤ hr.peak_multiplier) :
    1 / 100 ≤ effectiveHourlyRate (some hr) end_time := by
  unfold effectiveHourlyRate baseHourlyAmount
  have h1 := peakState_snd_ge_one hr end_time hpm
  nlinarith

theorem specDailyCapTotal_ge (uncapped daily_max eff : Rat) (d : Int)
    (hd : 0 ≤ d) (hu : 1 / 100 ≤ uncapped) (hm : 1 / 100 ≤ daily_max)
    (he : 0 ≤ eff) :
    1 / 100 ≤ specDailyCapTotal uncapped daily_max eff d := by
  have hrm : 0 ≤ d.fmod 1440 := by
    rw [Int.fmod_eq_emod _ (by norm_num)]
    exact Int.emod_nonneg d (by norm_num)
  simp only [specDailyCapTotal]
  by_cases hfd : 0 < d.fdiv 1440
  · rw [if_pos hfd]
    have hfd1 : (1 : Rat) ≤ ((d.fdiv 1440 : Int) : Rat) := by exact_mod_cast hfd
    have hceil : (0 : Rat) ≤ ((⌈((d.fmod 1440 : Int) : Rat) / 60⌉ : Int) : Rat) := by
      have : (0 : Int) ≤ ⌈((d.fmod 1440 : Int) : Rat) / 60⌉ := by
        apply Int.ceil_nonneg
        positivity
      exact_mod_cast this
    have hmin0 : (0 : Rat) ≤
        min (eff * ((⌈((d.fmod 1440 : Int) : Rat) / 60⌉ : Int) : Rat)) daily_max :=
      le_min (mul_nonneg he hceil) (by linarith)
    split_ifs
    · nlinarith
    · exact hu
  · rw [if_neg hfd]
    split_ifs
    · exact hm
    · exact hu

theorem fee_total_pos (d end_time : Int) (hr : Option Rate) (dro : Option Rate)
    (ev : Option Rat) (hd : 0 ≤ d)
    (hgrace : inGracePeriod hr d = false)
    (heff : 1 / 100 ≤ effectiveHourlyRate hr end_time)
    (hdro : ∀ dr, dro = some dr → 1 / 100 ≤ dr.amount) :
    0 < (fee_from_rates d end_time hr dro ev).total := by
  have hhours : (1 : Rat) ≤ ((billedHours d : Int) : Rat) := by
    exact_mod_cast billedHours_ge_one d
  have huncap : 1 / 100 ≤ effectiveHourlyRate hr end_time * ((billedHours d : Int) : Rat) := by
    nlinarith
  cases dro with
  | none =>
    simp only [fee_from_rates, hgrace, Bool.false_eq_true, if_false]
    exact round2_ge_hundredth _ huncap
  | some dr =>
    have hdm : 1 / 100 ≤ dailyMaxAdj dr.amount (effectiveHourlyRate hr end_time)
        (billedHours d) ev :=
      le_trans (hdro dr rfl) (dailyMaxAdj_ge _ _ _ _)
    rw [fee_total_eq_specDailyCap d end_time hr dr ev hd
      (le_trans (by norm_num) (hdro dr rfl)) hgrace]
    exact round2_ge_hundredth _
      (specDailyCapTotal_ge _ _ _ d hd huncap hdm (by linarith))

theorem fee_grace (d end_time : Int) (hro dro : Option Rate) (ev : Option Rat)
    (h : inGracePeriod hro d = true) :
    fee_from_rates d end_time hro dro ev =
      { duration_minutes := d, base_fee := 0, total := 0
        breakdown := [{ description := LineDesc.withinGrace, amount := 0 }] } := by
  simp only [fee_from_rates, h, if_true]

/-- C3 (amended): for an hourly rate with grace period g ≥ 1 minute, amount at
least one cent and peak multiplier at least 1, with any daily rate priced at
least one cent: a session of exactly g minutes is free with the single
"Within grace period" line item, and a session of g + 1 minutes has a
positive total.  (With g = 0 the grace branch is skipped — Python truthiness
— so a 0-minute session is billed a full hour; see the counterexample.) -/
theorem C3_grace_boundary_amended (hr : Rate) (dro : Option Rate) (ev : Option Rat)
    (end1 end2 : Int)
    (hg : 1 ≤ hr.grace_period_minutes)
    (hamt : 1 / 100 ≤ hr.amount)
    (hpm : 1 ≤ hr.peak_multiplier)
    (hdro : ∀ dr, dro = some dr → 1 / 100 ≤ dr.amount) :
    (fee_from_rates (hr.grace_period_minutes : Int) end1 (some hr) dro ev).total = 0 ∧
    (fee_from_rates (hr.grace_period_minutes : Int) end1 (some hr) dro ev).breakdown =
      [{ description := LineDesc.withinGrace, amount := 0 }] ∧
    0 < (fee_from_rates ((hr.grace_period_minutes : Int) + 1) end2 (some hr) dro ev).total := by
  have hgt : inGracePeriod (some hr) (hr.grace_period_minutes : Int) = true := by
    unfold inGracePeriod
    simp only [Bool.and_eq_true, bne_iff_ne, ne_eq, decide_eq_true_eq]
    omega
  have hgf : inGracePeriod (some hr) ((hr.grace_period_minutes : Int) + 1) = false := by
    unfold inGracePeriod
    simp only [Bool.and_eq_false_iff, decide_eq_false_iff_not]
    omega
  refine ⟨?_, ?_, ?_⟩
  · rw [fee_grace _ _ _ _ _ hgt]
  · rw [fee_grace _ _ _ _ _ hgt]
  · exact fee_total_pos _ _ _ _ _ (by omega) hgf
      (effectiveHourlyRate_ge hr end2 hamt hpm) hdro

/-- Witness for C3: the $5/15-min-grace rate with no daily rate — 15 minutes
are free with the grace line item, 16 minutes cost a positive amount. -/
theorem C3_grace_boundary_amended_witness :
    (fee_from_rates (rHourly5.grace_period_minutes : Int) 0 (some rHourly5) none none).total
        = 0 ∧
    (fee_from_rates (rHourly5.grace_period_minutes : Int) 0
        (some rHourly5) none none).breakdown =
      [{ description := LineDesc.withinGrace, amount := 0 }] ∧
    0 < (fee_from_rates ((rHourly5.grace_period_minutes : Int) + 1) 0
        (some rHourly5) none none).total :=
  C3_grace_boundary_amended rHourly5 none none 0 0 (by decide) (by norm_num [rHourly5])
    (by norm_num [rHourly5]) (fun _ h => by cases h)

/-- Counterexample for C3: with grace_period_minutes = 0 the claim fails — a
session of duration exactly g = 0 minutes is billed a full hour ($5), not 0:
the code's `if grace_period and ...` treats a zero grace period as absent. -/
theorem C3_zero_grace_counterexample :
    rGrace0.grace_period_minutes = 0 ∧
    (fee_from_rates ((rGrace0.grace_period_minutes : Nat) : Int) 0
        (some rGrace0) none none).total = 5 ∧
    (fee_from_rates ((rGrace0.grace_period_minutes : Nat) : Int) 0
        (some rGrace0) none none).total ≠ 0 := by
  have h2 : (fee_from_rates 0 0 (some rGrace0) none none).total = 5 := by
    have h1 : billedHours 0 = 1 := rfl
    simp only [fee_from_rates, inGracePeriod, rGrace0, peakState, effectiveHourlyRate,
      baseHourlyAmount, h1]
    norm_num
    have := round2_intCast 5
    norm_num at this
    exact this
  refine ⟨rfl, h2, ?_⟩
  rw [show ((rGrace0.grace_period_minutes : Nat) : Int) = 0 from rfl, h2]
  norm_num

/-- C4: the daily cap is applied exactly as the spec words it
(`specDailyCapTotal`), for every nonnegative duration and nonnegatively
priced daily rate; and the spec's two example scenarios come out to $20.00
and $75.00. -/
theorem C4_daily_cap_refinement :
    (∀ (d end_time : Int) (hr : Option Rate) (dr : Rate) (ev : Option Rat),
      0 ≤ d → 0 ≤ dr.amount → inGracePeriod hr d = false →
      (fee_from_rates d end_time hr (some dr) ev).total =
        round2 (specDailyCapTotal
          (effectiveHourlyRate hr end_time * (billedHours d : Rat))
          (dailyMaxAdj dr.amount (effectiveHourlyRate hr end_time) (billedHours d) ev)
          (effectiveHourlyRate hr end_time) d)) ∧
    (fee_from_rates 190 190 (some rHourly5) (some rDaily25) none).total = 20 ∧
    (fee_from_rates 4320 4320 (some rHourly5) (some rDaily25) none).total = 75 := by
  refine ⟨fun d end_time hr dr ev hd hdr hgrace =>
    fee_total_eq_specDailyCap d end_time hr dr ev hd hdr hgrace, ?_, ?_⟩
  · have h4 : billedHours 190 = 4 := rfl
    have hfd : (190 : Int).fdiv 1440 = 0 := rfl
    simp only [fee_from_rates, inGracePeriod, rHourly5, rDaily25, peakState,
      effectiveHourlyRate, baseHourlyAmount, dailyMaxAdj, h4, hfd]
    norm_num
    have := round2_intCast 20
    norm_num at this
    exact this
  · have h4 : billedHours 4320 = 72 := rfl
    have hfd : (4320 : Int).fdiv 1440 = 3 := rfl
    have hfm : (4320 : Int).fmod 1440 = 0 := rfl
    simp only [fee_from_rates, inGracePeriod, rHourly5, rDaily25, peakState,
      effectiveHourlyRate, baseHourlyAmount, dailyMaxAdj, h4, hfd, hfm]
    norm_num
    have := round2_intCast 75
    norm_num at this
    exact this

/-- Witness for C4: the refinement equation instantiated at the 190-minute
example scenario. -/
theorem C4_daily_cap_refinement_witness :
    (fee_from_rates 190 190 (some rHourly5) (some rDaily25) none).total =
      round2 (specDailyCapTotal
        (effectiveHourlyRate (some rHourly5) 190 * (billedHours 190 : Rat))
        (dailyMaxAdj rDaily25.amount (effectiveHourlyRate (some rHourly5) 190)
          (billedHours 190) none)
        (effectiveHourlyRate (some rHourly5) 190) 190) :=
  C4_daily_cap_refinement.1 190 190 (some rHourly5) rDaily25 none (by norm_num)
    (by norm_num [rDaily25]) (by decide)

/-- C8 (amended): for an hourly rate with a peak window and a multiplier that
is neither 0 nor 1, a billed interval whose end clock time falls in the
window is charged `amount * peak_multiplier` for the whole billed duration
with base and surcharge as two separate line items; outside the window no
multiplier applies and there is a single line item.  (A multiplier of 0 is
falsy and ignored — see the counterexample — and a multiplier of exactly 1
yields a single combined line item.) -/
theorem C8_peak_surcharge_amended (hr : Rate) (d end_time : Int) (ps pe : Int)
    (hps : hr.peak_start_time = some ps) (hpe : hr.peak_end_time = some pe)
    (hpm0 : hr.peak_multiplier ≠ 0) (hpm1 : hr.peak_multiplier ≠ 1)
    (hgrace : inGracePeriod (some hr) d = false) :
    (inPeakWindow ps pe (end_time.fmod 1440) = true →
      (fee_from_rates d end_time (some hr) none none).total =
        round2 (hr.amount * hr.peak_multiplier * ((billedHours d : Int) : Rat)) ∧
      (fee_from_rates d end_time (some hr) none none).breakdown =
        [{ description := LineDesc.parking (billedHours d) hr.amount
           amount := hr.amount * ((billedHours d : Int) : Rat) },
         { description := LineDesc.peakSurcharge hr.peak_multiplier
           amount := (hr.amount * hr.peak_multiplier - hr.amount) *
             ((billedHours d : Int) : Rat) }]) ∧
    (inPeakWindow ps pe (end_time.fmod 1440) = false →
      (fee_from_rates d end_time (some hr) none none).total =
        round2 (hr.amount * ((billedHours d : Int) : Rat)) ∧
      (fee_from_rates d end_time (some hr) none none).breakdown =
        [{ description := LineDesc.parking (billedHours d) hr.amount
           amount := hr.amount * ((billedHours d : Int) : Rat) }]) := by
  constructor
  · intro hw
    have hpk : peakState (some hr) end_time = (true, hr.peak_multiplier) := by
      simp only [peakState, hps, hpe, hw]
      rw [if_pos (by simp [hpm0])]
    simp only [fee_from_rates, hgrace, Bool.false_eq_true, if_false, hpk,
      effectiveHourlyRate, baseHourlyAmount]
    rw [if_pos (by simp [hpm1])]
    exact ⟨trivial, rfl⟩
  · intro hw
    have hpk : peakState (some hr) end_time = (false, 1) := by
      simp only [peakState, hps, hpe, hw]
      rw [if_neg (by simp)]
    simp only [fee_from_rates, hgrace, Bool.false_eq_true, if_false, hpk,
      effectiveHourlyRate, baseHourlyAmount]
    rw [if_neg (by simp)]
    constructor
    · rw [mul_one]
    · rw [mul_one]

/-- Witness for C8: the 1.5x-peak rate billed for 60 minutes ending at 9:00
(inside the window) is charged 4 * 1.5 with two line items. -/
theorem C8_peak_surcharge_amended_witness :
    (fee_from_rates 60 540 (some rPeak15) none none).total =
      round2 (rPeak15.amount * rPeak15.peak_multiplier * ((billedHours 60 : Int) : Rat)) ∧
    (fee_from_rates 60 540 (some rPeak15) none none).breakdown =
      [{ description := LineDesc.parking (billedHours 60) rPeak15.amount
         amount := rPeak15.amount * ((billedHours 60 : Int) : Rat) },
       { description := LineDesc.peakSurcharge rPeak15.peak_multiplier
         amount := (rPeak15.amount * rPeak15.peak_multiplier - rPeak15.amount) *
           ((billedHours 60 : Int) : Rat) }] :=
  (C8_peak_surcharge_amended rPeak15 60 540 480 600 rfl rfl (by norm_num [rPeak15])
    (by norm_num [rPeak15]) (by decide)).1 (by decide)

/-- Counterexample for C8: a rate with peak_multiplier = 0 and the billed end
inside the window is charged the plain hourly amount ($6), not
amount * peak_multiplier = $0: `if is_peak and hourly_rate.peak_multiplier`
treats the 0 multiplier as absent. -/
theorem C8_zero_multiplier_counterexample :
    rPeak0.peak_multiplier = 0 ∧
    inPeakWindow 480 600 ((540 : Int).fmod 1440) = true ∧
    (fee_from_rates 60 540 (some rPeak0) none none).total = 6 ∧
    round2 (rPeak0.amount * rPeak0.peak_multiplier * ((billedHours 60 : Int) : Rat)) = 0 := by
  refine ⟨rfl, by decide, ?_, ?_⟩
  · have h1 : billedHours 60 = 1 := rfl
    simp only [fee_from_rates, inGracePeriod, rPeak0, peakState, effectiveHourlyRate,
      baseHourlyAmount, inPeakWindow, h1]
    norm_num
    have := round2_intCast 6
    norm_num at this
    exact this
  · have h1 : billedHours 60 = 1 := rfl
    simp only [rPeak0, h1]
    norm_num
    have := round2_intCast 0
    norm_num at this
    exact this

end Carpark

namespace Carpark

theorem validate_discount_preserves (st : St) (code : String) (sid : Option Nat) (now : Int)
    (st' : St) (r : DiscountValidationResponse)
    (h : validate_discount st code sid now = .ok (st', r)) : st' = st := by
  unfold validate_discount at h
  repeat' split at h
  all_goals try (simp only [Except.ok.injEq, Prod.mk.injEq] at h; exact h.1.symm)
  all_goals simp at h

theorem paymentDiscountStep_spec (st : St) (data : PaymentCreate) (now : Int)
    (st₂ : St) (did : Option Nat) (D : Rat)
    (h : paymentDiscountStep st data now = .ok (st₂, did, D)) :
    (∀ k, did = some k → st₂.discounts = bumpDiscountUses st.discounts k) ∧
    (did = none → st₂.discounts = st.discounts) := by
  unfold paymentDiscountStep at h
  by_cases hc : pyTruthyStr data.discount_code = true
  · rw [if_pos hc] at h
    cases hv : validate_discount st (data.discount_code.getD "") (some data.session_id) now with
    | error e =>
      rw [hv] at h
      simp at h
    | ok p =>
      obtain ⟨st₁, validation⟩ := p
      have hst₁ : st₁ = st :=
        validate_discount_preserves st (data.discount_code.getD "") (some data.session_id)
          now st₁ validation hv
      subst hst₁
      rw [hv] at h
      cases hvb : validation.is_valid with
      | true =>
        cases hd : validation.discount with
        | none =>
          simp only [hvb, if_true, hd, Except.ok.injEq, Prod.mk.injEq] at h
          obtain ⟨h1, h2, h3⟩ := h
          subst h1
          constructor
          · intro k hk
            rw [← h2] at hk
            cases hk
          · intro hn
            rfl
        | some vd =>
          simp only [hvb, if_true, hd, Except.ok.injEq, Prod.mk.injEq] at h
          obtain ⟨h1, h2, h3⟩ := h
          subst h1
          constructor
          · intro k hk
            rw [← h2] at hk
            cases hk
            rfl
          · intro hn
            rw [← h2] at hn
            cases hn
      | false =>
        simp only [hvb, Bool.false_eq_true, if_false, Except.ok.injEq, Prod.mk.injEq] at h
        obtain ⟨h1, h2, h3⟩ := h
        subst h1
        constructor
        · intro k hk
          rw [← h2] at hk
          cases hk
        · intro hn
          rfl
  · rw [if_neg hc] at h
    simp only [Except.ok.injEq, Prod.mk.injEq] at h
    obtain ⟨h1, h2, h3⟩ := h
    subst h1
    constructor
    · intro k hk
      rw [← h2] at hk
      cases hk
    · intro hn
      rfl

end Carpark

namespace Carpark

/-- C6: `validate_discount` never changes the store (hence no discount's
`current_uses`), no matter how often it is called; a payment request that fails
leaves the store unchanged (the per-request rollback); and a successful
`process_payment` bumps `current_uses` exactly once for the discount it
applied (`discount_id`), and changes no discount when none was applied. -/
theorem C6_discount_uses_increment_exactly_once :
    (∀ (st : St) (code : String) (sid : Option Nat) (now : Int)
        (st' : St) (r : DiscountValidationResponse),
      validate_discount st code sid now = .ok (st', r) → st' = st) ∧
    (∀ (st : St) (data : PaymentCreate) (uid : Option Nat) (now : Int) (e : Err),
      (applyPaymentRequest st data uid now).2 = .error e →
      (applyPaymentRequest st data uid now).1 = st) ∧
    (∀ (st : St) (data : PaymentCreate) (uid : Option Nat) (now : Int)
        (st' : St) (p : Payment),
      process_payment st data uid now = .ok (st', p) →
      (∀ k, p.discount_id = some k → st'.discounts = bumpDiscountUses st.discounts k) ∧
      (p.discount_id = none → st'.discounts = st.discounts)) := by
  refine ⟨validate_discount_preserves, ?_, ?_⟩
  · intro st data uid now e h
    unfold applyPaymentRequest at h ⊢
    cases hp : process_payment st data uid now with
    | ok q => rw [hp] at h; simp at h
    | error e2 => rfl
  · intro st data uid now st' p h
    unfold process_payment at h
    split at h
    · simp at h
    · simp only [] at h
      split_ifs at h
      split at h
      · simp at h
      · split at h
        · simp at h
        · split at h
          · simp at h
          · rename_i st₂ did D hds hlt
            have hspec := paymentDiscountStep_spec st data now st₂ did D hds
            simp only [Except.ok.injEq, Prod.mk.injEq] at h
            obtain ⟨h1, h2⟩ := h
            subst h1
            subst h2
            exact ⟨fun k hk => hspec.1 k hk, fun hn => hspec.2 hn⟩

theorem C6_discount_uses_increment_exactly_once_witness :
    (applyPaymentRequest stOneSpace
        { session_id := 1, discount_code := none, amount := 0 } none 0).2
      = .error Err.notFound ∧
    (applyPaymentRequest stOneSpace
        { session_id := 1, discount_code := none, amount := 0 } none 0).1
      = stOneSpace :=
  ⟨rfl, C6_discount_uses_increment_exactly_once.2.1 stOneSpace
    { session_id := 1, discount_code := none, amount := 0 } none 0 Err.notFound rfl⟩

/-- C7: exit validation answers `can_exit = true` exactly when a COMPLETED
payment row exists for the session, and otherwise sets the amount due to the
fee calculator's total; `process_payment` raises PaymentError when a COMPLETED
payment already exists, and also when the tendered amount falls short of
`total - discount_amount`. -/
theorem C7_payment_gating :
    (∀ (st : St) (tn : Nat) (now : Int) (r : ValidateExitResponse)
        (session : ParkingSession),
      st.sessions.find? (fun s => decide (s.ticket_number = tn)) = some session →
      validate_exit st tn now = .ok r →
      ((r.can_exit = true ↔
          ∃ q ∈ st.payments, q.session_id = session.id ∧
            q.status = PaymentStatus.completed) ∧
       (r.can_exit = false →
          ∃ fc, calculate_fee st session.id none now = .ok fc ∧
            r.amount_due = some fc.total))) ∧
    (∀ (st : St) (data : PaymentCreate) (uid : Option Nat) (now : Int),
      (st.sessions.find? (fun s => decide (s.id = data.session_id))).isSome = true →
      (st.payments.filter fun q => decide (q.session_id = data.session_id) &&
        decide (q.status = PaymentStatus.completed)).length = 1 →
      process_payment st data uid now = .error .payment) ∧
    (∀ (st : St) (data : PaymentCreate) (uid : Option Nat) (now : Int)
        (fc : FeeCalculation) (st₂ : St) (did : Option Nat) (D : Rat),
      (st.sessions.find? (fun s => decide (s.id = data.session_id))).isSome = true →
      (st.payments.filter fun q => decide (q.session_id = data.session_id) &&
        decide (q.status = PaymentStatus.completed)) = [] →
      calculate_fee st data.session_id none now = .ok fc →
      paymentDiscountStep st data now = .ok (st₂, did, D) →
      data.amount < fc.total - D →
      process_payment st data uid now = .error .payment) := by
  refine ⟨?_, ?_, ?_⟩
  · intro st tn now r session hf h
    unfold validate_exit at h
    rw [hf] at h
    simp only [] at h
    split_ifs at h with h1 h2
    · simp only [Except.ok.injEq] at h
      subst h
      refine ⟨⟨fun _ => ?_, fun _ => rfl⟩, fun hfalse => by simp at hfalse⟩
      have hlen : 0 < (st.payments.filter fun q => decide (q.session_id = session.id) &&
          decide (q.status = PaymentStatus.completed)).length := by
        rw [h2]
        norm_num
      obtain ⟨q, hq⟩ := List.exists_mem_of_length_pos hlen
      obtain ⟨hqm, hqp⟩ := List.mem_filter.mp hq
      simp only [Bool.and_eq_true, decide_eq_true_eq] at hqp
      exact ⟨q, hqm, hqp.1, hqp.2⟩
    · have hnil : (st.payments.filter fun q => decide (q.session_id = session.id) &&
          decide (q.status = PaymentStatus.completed)) = [] := by
        have : (st.payments.filter fun q => decide (q.session_id = session.id) &&
            decide (q.status = PaymentStatus.completed)).length = 0 := by omega
        exact List.length_eq_zero.mp this
      split at h
      · simp at h
      · rename_i fc hfc
        simp only [Except.ok.injEq] at h
        subst h
        refine ⟨⟨fun hfalse => by simp at hfalse, ?_⟩, fun _ => ⟨fc, hfc, rfl⟩⟩
        rintro ⟨q, hqm, hq1, hq2⟩
        exfalso
        have hqf : q ∈ (st.payments.filter fun q => decide (q.session_id = session.id) &&
            decide (q.status = PaymentStatus.completed)) :=
          List.mem_filter.mpr ⟨hqm, by simp [hq1, hq2]⟩
        rw [hnil] at hqf
        simp at hqf
  · intro st data uid now h1 h2
    obtain ⟨session, hf⟩ := Option.isSome_iff_exists.mp h1
    unfold process_payment
    rw [hf]
    simp [h2]
  · intro st data uid now fc st₂ did D h1 hnil hfc hds hlt
    obtain ⟨session, hf⟩ := Option.isSome_iff_exists.mp h1
    unfold process_payment
    rw [hf]
    simp only [hnil, List.length_nil, hfc, hds]
    norm_num
    intro _ hb
    exfalso
    linarith

theorem C7_payment_gating_witness :
    (stPaid.sessions.find? (fun s => decide (s.id =
        ({ session_id := 1, discount_code := none, amount := 100 } :
          PaymentCreate).session_id))).isSome = true ∧
    (stPaid.payments.filter fun q => decide (q.session_id =
        ({ session_id := 1, discount_code := none, amount := 100 } :
          PaymentCreate).session_id) &&
      decide (q.status = PaymentStatus.completed)).length = 1 ∧
    process_payment stPaid { session_id := 1, discount_code := none, amount := 100 } none 60
      = .error .payment :=
  ⟨rfl, rfl, C7_payment_gating.2.1 stPaid
    { session_id := 1, discount_code := none, amount := 100 } none 60 rfl rfl⟩

end Carpark
